import Mathlib

/-!
Shallow embedding of the tcpman SOCKS5 proxy core (src/socks5.rs and the
per-connection orchestration in src/main.rs).

Modelling conventions:
* A byte stream is a `List Nat`; wire-wellformed bytes are `< 256` and the
  theorems carry that bound as a hypothesis where it matters.
* Reads consume from the front of the input list; a read past the end of the
  list is the I/O error Rust's `read_u8` / `read_exact` return on EOF.
* `anyhow::bail!` (and the `FromUtf8Error` from `String::from_utf8`) become
  `Err.protocolErr`; stream-level failures become `Err.ioErr`.
* The write half of a stream is a `WState`: the trace of bytes written so
  far plus an optional budget after which every further write fails, which
  models a stream whose write side starts erroring at a chosen point.
* Rust `String` values are modelled as their UTF-8 byte lists, together with
  the validity predicate `validUtf8` (the standard UTF-8 wellformedness check
  that `String::from_utf8` performs).
* A Rust panic (the `try_into().unwrap()` in `Address::write` on a domain
  longer than 255 bytes) is modelled as `Option.none`.
-/

deriving instance DecidableEq for Except

namespace Tcpman

/-- A byte stream / byte buffer: bytes are `Nat`, wellformed when `< 256`. -/
abbrev Bytes := List Nat

/-- Error class of the fallible operations: `ioErr` for stream read/write
failures (EOF, closed peer), `protocolErr` for `bail!` and UTF-8 failures. -/
inductive Err where
  | ioErr : Err
  | protocolErr : String → Err
deriving DecidableEq, Repr

/-- Model of `read_u8`: take one byte off the front of the stream. -/
def readU8 : Bytes → Except Err (Nat × Bytes)
  | [] => .error .ioErr
  | b :: rest => .ok (b, rest)

/-- Model of `read_exact` into a buffer of length `n`: take `n` bytes or fail. -/
def readExact (n : Nat) (s : Bytes) : Except Err (Bytes × Bytes) :=
  if s.length < n then .error .ioErr
  else .ok (s.take n, s.drop n)

/-- Model of `read_u16`: two bytes, big-endian. -/
def readU16 : Bytes → Except Err (Nat × Bytes)
  | hi :: lo :: rest => .ok (hi * 256 + lo, rest)
  | _ => .error .ioErr

/-- The big-endian byte pair `write_u16` emits for a `u16` value. -/
def u16Bytes (p : Nat) : Bytes := [p / 256 % 256, p % 256]

/-- Is `b` a UTF-8 continuation byte (`0x80..=0xBF`)? -/
def isCont (b : Nat) : Bool := 0x80 ≤ b && b ≤ 0xBF

/-- The UTF-8 wellformedness check performed by Rust's `String::from_utf8`:
standard table-driven validation, rejecting overlong encodings, surrogates
and code points above U+10FFFF. -/
def validUtf8 : Bytes → Bool
  | [] => true
  | b1 :: t1 =>
    if b1 ≤ 0x7F then validUtf8 t1
    else
      match t1 with
      | [] => false
      | b2 :: t2 =>
        if 0xC2 ≤ b1 && b1 ≤ 0xDF then isCont b2 && validUtf8 t2
        else
          match t2 with
          | [] => false
          | b3 :: t3 =>
            if b1 = 0xE0 then (0xA0 ≤ b2 && b2 ≤ 0xBF) && isCont b3 && validUtf8 t3
            else if 0xE1 ≤ b1 && b1 ≤ 0xEC then isCont b2 && isCont b3 && validUtf8 t3
            else if b1 = 0xED then (0x80 ≤ b2 && b2 ≤ 0x9F) && isCont b3 && validUtf8 t3
            else if 0xEE ≤ b1 && b1 ≤ 0xEF then isCont b2 && isCont b3 && validUtf8 t3
            else
              match t3 with
              | [] => false
              | b4 :: t4 =>
                if b1 = 0xF0 then (0x90 ≤ b2 && b2 ≤ 0xBF) && isCont b3 && isCont b4 && validUtf8 t4
                else if 0xF1 ≤ b1 && b1 ≤ 0xF3 then isCont b2 && isCont b3 && isCont b4 && validUtf8 t4
                else if b1 = 0xF4 then (0x80 ≤ b2 && b2 ≤ 0x8F) && isCont b3 && isCont b4 && validUtf8 t4
                else false

/-- Type `Address` from src/socks5.rs: `IP(IpAddr)` with its `V4`/`V6` cases
flattened into `ip4`/`ip6` (octet lists of length 4 resp. 16), and
`Domain(Cow<str>)` as the UTF-8 byte list of the string. -/
inductive Address where
  | ip4 (octets : Bytes)
  | ip6 (octets : Bytes)
  | domain (bytes : Bytes)
deriving DecidableEq, Repr

/-- Structural wellformedness of an `Address` value as Rust's types
guarantee it: 4 resp. 16 octets each a byte; a domain is a `String`, so its
bytes are valid UTF-8 (its length is NOT bounded by the type). -/
def Address.wf : Address → Prop
  | .ip4 bs => bs.length = 4 ∧ ∀ b ∈ bs, b < 256
  | .ip6 bs => bs.length = 16 ∧ ∀ b ∈ bs, b < 256
  | .domain bs => validUtf8 bs = true ∧ ∀ b ∈ bs, b < 256

/-- Model of `Address::write` into a `BufMut` buffer. The domain arm performs
`addr.len().try_into().unwrap()`, which panics (`none`) when the length does
not fit in a `u8`. -/
def Address.write : Address → Option Bytes
  | .ip4 bs => some (0x1 :: bs)
  | .ip6 bs => some (0x4 :: bs)
  | .domain bs =>
    if bs.length ≤ 255 then some (0x3 :: bs.length :: bs) else none

/-- Model of `Address::default(v6)`: the unspecified address of the chosen family. -/
def Address.defaultFor (v6 : Bool) : Address :=
  if v6 then .ip6 (List.replicate 16 0) else .ip4 (List.replicate 4 0)

/-- Model of `Address::parse`: one tag byte, then 4 octets (tag 1), a length byte and
that many UTF-8-validated bytes (tag 3), or 16 octets (tag 4); any other tag
is `bail!("invalid address type")`. -/
def Address.parse (s : Bytes) : Except Err (Address × Bytes) :=
  match readU8 s with
  | .error e => .error e
  | .ok (t, s) =>
    match t with
    | 0x1 =>
      match readExact 4 s with
      | .error e => .error e
      | .ok (buf, s) => .ok (.ip4 buf, s)
    | 0x3 =>
      match readU8 s with
      | .error e => .error e
      | .ok (len, s) =>
        match readExact len s with
        | .error e => .error e
        | .ok (buf, s) =>
          if validUtf8 buf then .ok (.domain buf, s)
          else .error (.protocolErr "invalid utf-8")
    | 0x4 =>
      match readExact 16 s with
      | .error e => .error e
      | .ok (buf, s) => .ok (.ip6 buf, s)
    | _ => .error (.protocolErr "invalid address type")

/-- Type `FailStatus` from src/socks5.rs. -/
inductive FailStatus where
  | generalFailure
  | notAllowed
  | networkUnreachable
  | hostUnreachable
  | connectionRefused
  | ttlExpired
  | commandNotSupported
  | addressTypeNotSupported
deriving DecidableEq, Repr

/-- The `IntoPrimitive` conversion given by the `#[repr(u8)]` discriminants. -/
def FailStatus.toWire : FailStatus → Nat
  | .generalFailure => 1
  | .notAllowed => 2
  | .networkUnreachable => 3
  | .hostUnreachable => 4
  | .connectionRefused => 5
  | .ttlExpired => 6
  | .commandNotSupported => 7
  | .addressTypeNotSupported => 8

/-- Type `Request` from src/socks5.rs. -/
inductive Request where
  | connect (a : Address) (port : Nat)
  | bind (a : Address) (port : Nat)
  | udpAssociate (a : Address) (port : Nat)
deriving DecidableEq, Repr

/-- The destination address carried by a request. -/
def Request.addr : Request → Address
  | .connect a _ => a
  | .bind a _ => a
  | .udpAssociate a _ => a

/-- Write half of a stream: the trace written so far, and an optional budget
`some k` meaning that any write pushing the total trace past `k` bytes fails
with an I/O error (`none` = writes always succeed). -/
structure WState where
  written : Bytes
  budget : Option Nat
deriving DecidableEq, Repr

/-- A (`write_all`-style) write of `bs`: appends to the trace or fails. -/
def writeBytes (w : WState) (bs : Bytes) : Except Err WState :=
  match w.budget with
  | none => .ok { w with written := w.written ++ bs }
  | some k =>
    if w.written.length + bs.length ≤ k then
      .ok { w with written := w.written ++ bs }
    else .error .ioErr

/-- The acceptor session state left after a successful handshake: the single
derived flag recording whether the parsed destination address was an IPv6
literal (the stream itself is threaded separately as input/`WState`). -/
structure Acceptor where
  is_v6 : Bool
deriving DecidableEq, Repr

/-- Model of `Acceptor::reply` from src/socks5.rs, modelled exactly as written: it
builds `buf` — `[0x05, status-or-0, 0x00]` followed by the bound address or
the family default — but never writes `buf` to the stream; the only bytes
that reach the stream are the two port bytes of `write_u16`. `none` models
the panic of `Address::write` on an over-long domain; otherwise the result
is the outcome of the port write. -/
def Acceptor.reply (a : Acceptor) (w : WState) (status : Option FailStatus)
    (bound : Option Address) (port : Option Nat) : Option (Except Err WState) :=
  let hdr : Bytes := [0x5, (status.map FailStatus.toWire).getD 0x0, 0x0]
  match (bound.getD (Address.defaultFor a.is_v6)).write with
  | none => none
  | some abytes =>
    let _buf : Bytes := hdr ++ abytes
    some (writeBytes w (u16Bytes (port.getD 0)))

/-- Model of `Acceptor::reply_success`: `reply` with no status and the bound
address/port; on `Ok` the caller regains the stream (here: the `WState`). -/
def Acceptor.replySuccess (a : Acceptor) (w : WState) (bound : Address)
    (port : Nat) : Option (Except Err WState) :=
  a.reply w none (some bound) (some port)

/-- Model of `Acceptor::reply_failure`: `let _ = self.reply(..)`: the reply's error is
discarded and the stream dropped. The result is the externally observable
trace of the dropped stream: unchanged when the write failed. The `none`
(panic) branch of `reply` is unreachable here since the default address is an
IP literal, whose `write` never panics; it is mapped to the untouched trace. -/
def Acceptor.replyFailure (a : Acceptor) (w : WState) (status : FailStatus) :
    WState :=
  match a.reply w (some status) none none with
  | some (.ok w2) => w2
  | some (.error _) => w
  | none => w

/-- The reads of `Acceptor::accept` up to (and including) the check that the
offered auth methods contain 0x00; returns the remaining input. -/
def greetingReads (input : Bytes) : Except Err Bytes :=
  match readU8 input with
  | .error e => .error e
  | .ok (v, s) =>
    if v ≠ 0x05 then .error (.protocolErr "invalid socks version")
    else
      match readU8 s with
      | .error e => .error e
      | .ok (nAuth, s) =>
        match readExact nAuth s with
        | .error e => .error e
        | .ok (methods, s) =>
          if methods.contains 0x00 then .ok s
          else .error (.protocolErr "only no auth is supported")

/-- The reads of `Acceptor::accept` after the greeting reply has been
written: request version check, command byte, reserved byte, address, port;
the `is_v6` flag is derived from the parsed address before the command is
dispatched. -/
def acceptAfterGreeting (s : Bytes) : Except Err (Request × Acceptor × Bytes) :=
  match readU8 s with
  | .error e => .error e
  | .ok (v2, s) =>
    if v2 ≠ 0x05 then .error (.protocolErr "invalid socks version")
    else
      match readU8 s with
      | .error e => .error e
      | .ok (cmd, s) =>
        match readU8 s with
        | .error e => .error e
        | .ok (_reserved, s) =>
          match Address.parse s with
          | .error e => .error e
          | .ok (address, s) =>
            match readU16 s with
            | .error e => .error e
            | .ok (port, s) =>
              let is_v6 : Bool :=
                match address with
                | .ip6 _ => true
                | _ => false
              match cmd with
              | 0x01 => .ok (.connect address port, ⟨is_v6⟩, s)
              | 0x02 => .ok (.bind address port, ⟨is_v6⟩, s)
              | 0x03 => .ok (.udpAssociate address port, ⟨is_v6⟩, s)
              | _ => .error (.protocolErr "invalid command")

/-- Model of `Acceptor::accept`: greeting reads, then the `[0x05, 0x00]` greeting
reply, then the request reads. Returns the handshake outcome together with
the final state of the write half. -/
def Acceptor.accept (input : Bytes) (w : WState) :
    Except Err (Request × Acceptor × Bytes) × WState :=
  match greetingReads input with
  | .error e => (.error e, w)
  | .ok s =>
    match writeBytes w [0x5, 0x0] with
    | .error e => (.error e, w)
    | .ok w2 => (acceptAfterGreeting s, w2)

/-- Outcome of `TcpStream::connect` as the orchestrator consumes it: either
the connected socket's locally bound address and port, or an error already
mapped to the `FailStatus` the orchestrator feeds to `reply_failure`. -/
inductive ConnectOutcome where
  | ok (boundAddr : Address) (boundPort : Nat)
  | err (status : FailStatus)
deriving DecidableEq, Repr

/-- How one run of `handle_socks5_client` ended. -/
inductive HandleResult where
  | errNoReply (e : Err)
  | errAfterFailureReply (status : FailStatus)
  | errReplyWrite (e : Err)
  | relayed
deriving DecidableEq, Repr

/-- Model of `handle_socks5_client` from src/main.rs, up to the relay: accept the
handshake, dispatch on the request (`bail!("Invalid request")` for anything
but `Connect`), attempt the upstream connection through the `connect`
oracle, reply, and hand the streams to `copy_bidirectional` (`relayed`).
Returns the result, the final write-half state of the client stream, and
whether an upstream connection was attempted. -/
def handleClient (input : Bytes) (w : WState)
    (connect : Address → Nat → ConnectOutcome) :
    HandleResult × WState × Bool :=
  match Acceptor.accept input w with
  | (.error e, w2) => (.errNoReply e, w2, false)
  | (.ok (req, acceptor, _rest), w2) =>
    match req with
    | .connect addr port =>
      match connect addr port with
      | .ok baddr bport =>
        match acceptor.replySuccess w2 baddr bport with
        | some (.ok w3) => (.relayed, w3, true)
        | some (.error e) => (.errReplyWrite e, w2, true)
        | none => (.errNoReply (.protocolErr "unreachable"), w2, true)
      | .err st => (.errAfterFailureReply st, acceptor.replyFailure w2 st, true)
    | _ => (.errNoReply (.protocolErr "Invalid request"), w2, false)

/-- Reading exactly the length of a prefix returns that prefix and the rest. -/
theorem readExact_append (bs rest : Bytes) :
    readExact bs.length (bs ++ rest) = .ok (bs, rest) := by
  unfold readExact
  rw [if_neg (by simp)]
  rw [List.take_left, List.drop_left]

/-- Claim C7: each `FailStatus` variant carries the fixed wire value 1–8 in
declaration order, and the conversion to the wire value is injective, so the
wire value determines the variant uniquely. -/
theorem c7_failstatus_wire_values :
    (FailStatus.toWire .generalFailure = 1 ∧
     FailStatus.toWire .notAllowed = 2 ∧
     FailStatus.toWire .networkUnreachable = 3 ∧
     FailStatus.toWire .hostUnreachable = 4 ∧
     FailStatus.toWire .connectionRefused = 5 ∧
     FailStatus.toWire .ttlExpired = 6 ∧
     FailStatus.toWire .commandNotSupported = 7 ∧
     FailStatus.toWire .addressTypeNotSupported = 8) ∧
    ∀ a b : FailStatus, FailStatus.toWire a = FailStatus.toWire b → a = b := by
  refine ⟨by decide, ?_⟩
  intro a b h
  cases a <;> cases b <;> simp_all [FailStatus.toWire]

/-- Witness for C7 at a concrete status. -/
theorem c7_failstatus_wire_values_witness :
    FailStatus.connectionRefused = FailStatus.connectionRefused :=
  c7_failstatus_wire_values.2 .connectionRefused .connectionRefused rfl

/-- Claim C9: serializing a domain name fails (panics) exactly when its byte
length exceeds 255, and for lengths up to 255 it emits tag 0x03, the length
byte, and the raw bytes. -/
theorem c9_domain_serialize (bs : Bytes) :
    (Address.write (.domain bs) = none ↔ 255 < bs.length) ∧
    (bs.length ≤ 255 →
      Address.write (.domain bs) = some (0x3 :: bs.length :: bs)) := by
  simp only [Address.write]
  constructor
  · constructor
    · intro h
      by_contra hgt
      rw [if_pos (by omega)] at h
      exact Option.noConfusion h
    · intro h
      rw [if_neg (by omega)]
  · intro h
    rw [if_pos h]

/-- Witness for C9 at the domain "tcp". -/
theorem c9_domain_serialize_witness :
    Address.write (.domain [116, 99, 112]) = some (0x3 :: 3 :: [116, 99, 112]) :=
  (c9_domain_serialize [116, 99, 112]).2 (by decide)

/-- Claim C1, evaluation at the failing input: with an IPv4 session on a
healthy stream, `reply_success` for bound address 127.0.0.1 port 80 writes
only the two port bytes `[0x00, 0x50]` (and returns the stream), not the
ten-byte reply `[0x05, 0x00, 0x00, 0x01, 127, 0, 0, 1, 0x00, 0x50]` the
specification demands: the header/address buffer built inside `reply` is
never written to the stream. -/
theorem c1_reply_success_writes_only_port :
    Acceptor.replySuccess ⟨false⟩ ⟨[], none⟩ (.ip4 [127, 0, 0, 1]) 80 =
      some (.ok ⟨[0, 80], none⟩) ∧
    ([0, 80] : Bytes) ≠ [0x5, 0x0, 0x0, 0x1, 127, 0, 0, 1, 0, 80] := by
  decide

/-- Claim C2, evaluation at the failing input: `reply_failure` on a healthy
stream writes only the two zero port bytes, for an IPv6-negotiated session
as well as an IPv4 one; in particular not even the version byte 0x05 (let
alone the status code or the unspecified address) reaches the client. -/
theorem c2_reply_failure_writes_only_port_zero :
    (Acceptor.replyFailure ⟨true⟩ ⟨[], none⟩ .hostUnreachable = ⟨[0, 0], none⟩ ∧
     Acceptor.replyFailure ⟨false⟩ ⟨[], none⟩ .connectionRefused = ⟨[0, 0], none⟩) ∧
    (0x5 : Nat) ∉ ([0, 0] : Bytes) := by
  decide

/-- Claim C3, counterexample: a complete handshake carrying command 0x02
(Bind) makes `handle_socks5_client` return the `bail!("Invalid request")`
error without attempting an upstream connection, and the bytes on the wire
are exactly the greeting reply `[0x05, 0x00]` — no byte 0x07 (and no failure
reply at all) is ever written, refuting the claimed CommandNotSupported
reply. -/
theorem c3_bind_counterexample :
    handleClient [5, 1, 0, 5, 2, 0, 1, 127, 0, 0, 1, 0, 80] ⟨[], none⟩
        (fun _ _ => .ok (.ip4 [10, 0, 0, 1]) 4000) =
      (.errNoReply (.protocolErr "Invalid request"), ⟨[5, 0], none⟩, false) ∧
    (0x7 : Nat) ∉ ([5, 0] : Bytes) := by
  decide

/-- Claim C3 as amended: when the accepted request is Bind or UdpAssociate,
the orchestrator fails with the `Invalid request` error without attempting
any upstream connection and without writing any reply bytes beyond those of
the handshake itself. -/
theorem c3_bind_rejected_without_reply (input : Bytes) (w w2 : WState)
    (connect : Address → Nat → ConnectOutcome)
    (req : Request) (acc : Acceptor) (rest : Bytes)
    (hacc : Acceptor.accept input w = (.ok (req, acc, rest), w2))
    (hreq : (∃ a p, req = .bind a p) ∨ (∃ a p, req = .udpAssociate a p)) :
    handleClient input w connect =
      (.errNoReply (.protocolErr "Invalid request"), w2, false) := by
  unfold handleClient
  rw [hacc]
  rcases hreq with ⟨a, p, rfl⟩ | ⟨a, p, rfl⟩ <;> rfl

/-- Witness for the amended C3 at a concrete Bind handshake. -/
theorem c3_bind_rejected_without_reply_witness :
    handleClient [5, 1, 0, 5, 2, 0, 1, 127, 0, 0, 1, 0, 80] ⟨[], none⟩
        (fun _ _ => .err .generalFailure) =
      (.errNoReply (.protocolErr "Invalid request"), ⟨[5, 0], none⟩, false) :=
  c3_bind_rejected_without_reply [5, 1, 0, 5, 2, 0, 1, 127, 0, 0, 1, 0, 80]
    ⟨[], none⟩ ⟨[5, 0], none⟩ (fun _ _ => .err .generalFailure)
    (.bind (.ip4 [127, 0, 0, 1]) 80) ⟨false⟩ [] (by decide)
    (Or.inl ⟨.ip4 [127, 0, 0, 1], 80, rfl⟩)

/-- Unfolding lemma: `parse` after reading tag 0x01. -/
theorem parse_tag1 (l : Bytes) :
    Address.parse (0x1 :: l) =
      match readExact 4 l with
      | .error e => .error e
      | .ok (buf, s) => .ok (.ip4 buf, s) := rfl

/-- Unfolding lemma: `parse` after reading tag 0x04. -/
theorem parse_tag4 (l : Bytes) :
    Address.parse (0x4 :: l) =
      match readExact 16 l with
      | .error e => .error e
      | .ok (buf, s) => .ok (.ip6 buf, s) := rfl

/-- Unfolding lemma: `parse` after reading tag 0x03 and the length byte. -/
theorem parse_tag3 (len : Nat) (l : Bytes) :
    Address.parse (0x3 :: len :: l) =
      match readExact len l with
      | .error e => .error e
      | .ok (buf, s) =>
        if validUtf8 buf then .ok (.domain buf, s)
        else .error (.protocolErr "invalid utf-8") := rfl

/-- Claim C4: for every wellformed `Address` value (IPv4 and IPv6 literals
of 4 resp. 16 octets, and domain names whose UTF-8 encoding has 0 to 255
bytes — longer domains cannot be serialized at all), serializing and then
parsing the produced bytes (in front of any continuation of the stream)
yields the original value and leaves the continuation unread. -/
theorem c4_address_roundtrip (a : Address) (out rest : Bytes)
    (hwf : a.wf) (hw : a.write = some out) :
    Address.parse (out ++ rest) = .ok (a, rest) := by
  cases a with
  | ip4 bs =>
    obtain ⟨hlen, -⟩ := hwf
    simp only [Address.write, Option.some.injEq] at hw
    subst hw
    rw [List.cons_append, parse_tag1, ← hlen, readExact_append]
  | ip6 bs =>
    obtain ⟨hlen, -⟩ := hwf
    simp only [Address.write, Option.some.injEq] at hw
    subst hw
    rw [List.cons_append, parse_tag4, ← hlen, readExact_append]
  | domain bs =>
    obtain ⟨hval, -⟩ := hwf
    simp only [Address.write] at hw
    split at hw
    · rename_i hle
      rw [Option.some.injEq] at hw
      subst hw
      rw [List.cons_append, List.cons_append, parse_tag3, readExact_append]
      simp [hval]
    · exact absurd hw (by simp)

/-- Witness for C4 at the two-byte domain "ex". -/
theorem c4_address_roundtrip_witness :
    Address.write (.domain [101, 120]) = some [3, 2, 101, 120] ∧
    Address.parse ([3, 2, 101, 120] ++ [9, 9]) = .ok (.domain [101, 120], [9, 9]) :=
  ⟨by decide, c4_address_roundtrip (.domain [101, 120]) [3, 2, 101, 120] [9, 9]
    ⟨by decide, by decide⟩ (by decide)⟩

/-- Evaluation of the greeting reads on a wellformed greeting: version 0x05,
count byte equal to the number of offered methods, then the methods. -/
theorem greetingReads_eval (methods rest : Bytes) :
    greetingReads (0x05 :: methods.length :: (methods ++ rest)) =
      if methods.contains 0x00 then .ok rest
      else .error (.protocolErr "only no auth is supported") := by
  unfold greetingReads
  simp only [readU8, readExact_append, ne_eq]
  simp

/-- Claim C5: on a greeting offering any method list, the acceptor writes
the greeting reply `[0x05, 0x00]` and proceeds to the request phase exactly
when 0x00 occurs anywhere in the offered list; otherwise it fails with the
protocol error before writing anything. -/
theorem c5_greeting_iff_noauth (methods rest trace : Bytes) :
    (methods.contains 0x00 = true →
      Acceptor.accept (0x05 :: methods.length :: (methods ++ rest)) ⟨trace, none⟩ =
        (acceptAfterGreeting rest, ⟨trace ++ [0x5, 0x0], none⟩)) ∧
    (methods.contains 0x00 = false →
      Acceptor.accept (0x05 :: methods.length :: (methods ++ rest)) ⟨trace, none⟩ =
        (.error (.protocolErr "only no auth is supported"), ⟨trace, none⟩)) := by
  constructor
  · intro hc
    unfold Acceptor.accept
    rw [greetingReads_eval, if_pos hc]
    rfl
  · intro hc
    unfold Acceptor.accept
    rw [greetingReads_eval, if_neg (by rw [hc]; simp)]

/-- Witness for C5: the offered lists `{0x01, 0x00, 0x02}` (accepted,
order-independent) and `{0x01, 0x02}` (rejected). -/
theorem c5_greeting_iff_noauth_witness :
    Acceptor.accept (0x05 :: 3 :: ([1, 0, 2] ++ [7])) ⟨[], none⟩ =
      (acceptAfterGreeting [7], ⟨[0x5, 0x0], none⟩) ∧
    Acceptor.accept (0x05 :: 2 :: ([1, 2] ++ [7])) ⟨[], none⟩ =
      (.error (.protocolErr "only no auth is supported"), ⟨[], none⟩) :=
  ⟨(c5_greeting_iff_noauth [1, 0, 2] [7] []).1 (by decide),
   (c5_greeting_iff_noauth [1, 2] [7] []).2 (by decide)⟩

/-- Inversion: a successful `accept` decomposes into successful greeting
reads, the greeting-reply write, and successful request reads. -/
theorem accept_ok_inv (input : Bytes) (w w2 : WState) (req : Request)
    (acc : Acceptor) (rest : Bytes)
    (h : Acceptor.accept input w = (.ok (req, acc, rest), w2)) :
    ∃ s, greetingReads input = .ok s ∧
      acceptAfterGreeting s = .ok (req, acc, rest) := by
  unfold Acceptor.accept at h
  split at h
  · simp at h
  · rename_i s hs
    split at h
    · simp at h
    · rename_i w3 hw
      rw [Prod.mk.injEq] at h
      exact ⟨s, hs, h.1⟩

/-- The session flag stored by the request phase is exactly the
is-an-IPv6-literal test of the parsed destination address. -/
theorem acceptAfterGreeting_is_v6 (s : Bytes) (req : Request) (acc : Acceptor)
    (rest : Bytes) (h : acceptAfterGreeting s = .ok (req, acc, rest)) :
    acc.is_v6 = (match req.addr with | .ip6 _ => true | _ => false) := by
  unfold acceptAfterGreeting at h
  simp only [] at h
  repeat' split at h
  all_goals first
    | exact Except.noConfusion h
    | (rw [Except.ok.injEq, Prod.mk.injEq, Prod.mk.injEq] at h
       obtain ⟨rfl, rfl, rfl⟩ := h
       first
         | rfl
         | simp only [Request.addr])

/-- Claim C10: after any successfully accepted handshake the recorded
`is_v6` flag is true exactly when the destination address is an IPv6
literal; a domain destination therefore records `false`, and the default
address a later failure reply would select is the IPv4 unspecified address
0.0.0.0. -/
theorem c10_is_v6_flag (input : Bytes) (w w2 : WState) (req : Request)
    (acc : Acceptor) (rest : Bytes)
    (hacc : Acceptor.accept input w = (.ok (req, acc, rest), w2)) :
    (acc.is_v6 = true ↔ ∃ bs, req.addr = .ip6 bs) ∧
    (∀ bs, req.addr = .domain bs →
      Address.defaultFor acc.is_v6 = .ip4 [0, 0, 0, 0]) := by
  obtain ⟨s, hs, hag⟩ := accept_ok_inv input w w2 req acc rest hacc
  have hv := acceptAfterGreeting_is_v6 s req acc rest hag
  constructor
  · rw [hv]
    cases ha : req.addr <;> simp
  · intro bs hb
    rw [hv, hb]
    rfl

/-- Witness for C10 at a domain-destination handshake. -/
theorem c10_is_v6_flag_witness :
    ((⟨false⟩ : Acceptor).is_v6 = true ↔
      ∃ bs, (Request.connect (.domain [101, 120]) 80).addr = .ip6 bs) ∧
    Address.defaultFor false = .ip4 [0, 0, 0, 0] :=
  have h := c10_is_v6_flag [5, 1, 0, 5, 1, 0, 3, 2, 101, 120, 0, 80] ⟨[], none⟩
    ⟨[5, 0], none⟩ (.connect (.domain [101, 120]) 80) ⟨false⟩ [] (by decide)
  ⟨h.1, h.2 [101, 120] rfl⟩

/-- Claim C8: on a stream whose write side fails, `reply_failure` swallows
the underlying I/O error and returns normally with the trace untouched,
while the same failure during `reply_success` propagates out of
`handle_socks5_client` as `errReplyWrite`, so the relay is never reached. -/
theorem c8_error_asymmetry
    (a : Acceptor) (w : WState) (k : Nat) (st : FailStatus)
    (input : Bytes) (w0 w2 : WState) (k2 : Nat)
    (connect : Address → Nat → ConnectOutcome)
    (addr baddr : Address) (port bport : Nat) (acc : Acceptor)
    (rest obs : Bytes)
    (hk : w.budget = some k) (hlt : k < w.written.length + 2)
    (hacc : Acceptor.accept input w0 = (.ok (.connect addr port, acc, rest), w2))
    (hconn : connect addr port = .ok baddr bport)
    (hbw : baddr.write = some obs)
    (hk2 : w2.budget = some k2) (hlt2 : k2 < w2.written.length + 2) :
    (a.reply w (some st) none none = some (.error .ioErr) ∧
     a.replyFailure w st = w) ∧
    (handleClient input w0 connect = (.errReplyWrite .ioErr, w2, true) ∧
     (handleClient input w0 connect).1 ≠ .relayed) := by
  have hwfail : ∀ p, writeBytes w (u16Bytes p) = .error .ioErr := by
    intro p
    simp only [writeBytes, u16Bytes, hk]
    rw [if_neg (by simp; omega)]
  have hreply : a.reply w (some st) none none = some (.error .ioErr) := by
    unfold Acceptor.reply
    cases hv : a.is_v6 <;>
      simp [Address.defaultFor, Address.write, hwfail 0, Option.getD]
  have hrf : a.replyFailure w st = w := by
    unfold Acceptor.replyFailure
    rw [hreply]
  have hwfail2 : writeBytes w2 (u16Bytes bport) = .error .ioErr := by
    simp only [writeBytes, u16Bytes, hk2]
    rw [if_neg (by simp; omega)]
  have hws : acc.replySuccess w2 baddr bport = some (.error .ioErr) := by
    unfold Acceptor.replySuccess Acceptor.reply
    simp only [Option.getD]
    rw [hbw]
    simp [hwfail2]
  have hh : handleClient input w0 connect = (.errReplyWrite .ioErr, w2, true) := by
    unfold handleClient
    rw [hacc]
    simp only []
    rw [hconn]
    simp only []
    rw [hws]
  exact ⟨⟨hreply, hrf⟩, hh, by rw [hh]; simp⟩

/-- Witness for C8: a failure reply on an exhausted stream, and a full
Connect handshake whose success-reply write fails. -/
theorem c8_error_asymmetry_witness :
    (Acceptor.reply ⟨false⟩ ⟨[], some 0⟩ (some .generalFailure) none none =
        some (.error .ioErr) ∧
      Acceptor.replyFailure ⟨false⟩ ⟨[], some 0⟩ .generalFailure = ⟨[], some 0⟩) ∧
    handleClient [5, 1, 0, 5, 1, 0, 1, 127, 0, 0, 1, 0, 80] ⟨[], some 2⟩
        (fun _ _ => .ok (.ip4 [10, 0, 0, 1]) 8080) =
      (.errReplyWrite .ioErr, ⟨[5, 0], some 2⟩, true) :=
  have h := c8_error_asymmetry ⟨false⟩ ⟨[], some 0⟩ 0 .generalFailure
    [5, 1, 0, 5, 1, 0, 1, 127, 0, 0, 1, 0, 80] ⟨[], some 2⟩ ⟨[5, 0], some 2⟩ 2
    (fun _ _ => .ok (.ip4 [10, 0, 0, 1]) 8080)
    (.ip4 [127, 0, 0, 1]) (.ip4 [10, 0, 0, 1]) 80 8080 ⟨false⟩ [] [1, 10, 0, 0, 1]
    rfl (by decide) (by decide) rfl (by decide) rfl (by decide)
  ⟨h.1, h.2.1⟩

/-- Claim C6: exhaustive characterization of `Address::parse` on every
input stream: tag 0x01 consumes 4 octets into an IPv4 address, tag 0x04
consumes 16 octets into an IPv6 address, tag 0x03 consumes a length byte and
that many bytes into a domain when they are valid UTF-8 and fails with the
invalid-utf-8 protocol error when they are not, any other tag fails with the
unsupported-address-type protocol error, and the only remaining outcome is
the I/O error of a read reaching the end of the stream — which can occur
only on the listed insufficient-input shapes, so on every sufficiently long
input the positive per-tag behavior is forced. -/
theorem c6_parse_cases (s : Bytes) :
    (∃ bs rest, s = 0x1 :: (bs ++ rest) ∧ bs.length = 4 ∧
      Address.parse s = .ok (.ip4 bs, rest)) ∨
    (∃ bs rest, s = 0x4 :: (bs ++ rest) ∧ bs.length = 16 ∧
      Address.parse s = .ok (.ip6 bs, rest)) ∨
    (∃ len bs rest, s = 0x3 :: len :: (bs ++ rest) ∧ bs.length = len ∧
      validUtf8 bs = true ∧ Address.parse s = .ok (.domain bs, rest)) ∨
    (∃ len bs rest, s = 0x3 :: len :: (bs ++ rest) ∧ bs.length = len ∧
      validUtf8 bs = false ∧
      Address.parse s = .error (.protocolErr "invalid utf-8")) ∨
    (∃ t rest, s = t :: rest ∧ t ≠ 0x1 ∧ t ≠ 0x3 ∧ t ≠ 0x4 ∧
      Address.parse s = .error (.protocolErr "invalid address type")) ∨
    (Address.parse s = .error .ioErr ∧
      (s = [] ∨
       (∃ l, s = 0x1 :: l ∧ l.length < 4) ∨
       (∃ l, s = 0x4 :: l ∧ l.length < 16) ∨
       s = [0x3] ∨
       (∃ len l, s = 0x3 :: len :: l ∧ l.length < len))) := by
  cases s with
  | nil =>
    right; right; right; right; right
    exact ⟨rfl, Or.inl rfl⟩
  | cons t l =>
    by_cases h1 : t = 1
    · subst h1
      by_cases hl : l.length < 4
      · right; right; right; right; right
        refine ⟨?_, Or.inr (Or.inl ⟨l, rfl, hl⟩)⟩
        rw [parse_tag1]
        unfold readExact
        rw [if_pos hl]
      · left
        refine ⟨l.take 4, l.drop 4, ?_, ?_, ?_⟩
        · rw [List.take_append_drop]
        · rw [List.length_take]; omega
        · rw [parse_tag1]
          unfold readExact
          rw [if_neg hl]
    · by_cases h4 : t = 4
      · subst h4
        by_cases hl : l.length < 16
        · right; right; right; right; right
          refine ⟨?_, Or.inr (Or.inr (Or.inl ⟨l, rfl, hl⟩))⟩
          rw [parse_tag4]
          unfold readExact
          rw [if_pos hl]
        · right; left
          refine ⟨l.take 16, l.drop 16, ?_, ?_, ?_⟩
          · rw [List.take_append_drop]
          · rw [List.length_take]; omega
          · rw [parse_tag4]
            unfold readExact
            rw [if_neg hl]
      · by_cases h3 : t = 3
        · subst h3
          cases l with
          | nil =>
            right; right; right; right; right
            exact ⟨rfl, Or.inr (Or.inr (Or.inr (Or.inl rfl)))⟩
          | cons len l2 =>
            by_cases hl : l2.length < len
            · right; right; right; right; right
              refine ⟨?_, Or.inr (Or.inr (Or.inr (Or.inr ⟨len, l2, rfl, hl⟩)))⟩
              rw [parse_tag3]
              unfold readExact
              rw [if_pos hl]
            · by_cases hv : validUtf8 (l2.take len) = true
              · right; right; left
                refine ⟨len, l2.take len, l2.drop len, ?_, ?_, hv, ?_⟩
                · rw [List.take_append_drop]
                · rw [List.length_take]; omega
                · rw [parse_tag3]
                  unfold readExact
                  rw [if_neg hl]
                  simp [hv]
              · right; right; right; left
                refine ⟨len, l2.take len, l2.drop len, ?_, ?_, by simpa using hv, ?_⟩
                · rw [List.take_append_drop]
                · rw [List.length_take]; omega
                · rw [parse_tag3]
                  unfold readExact
                  rw [if_neg hl]
                  simp [hv]
        · right; right; right; right; left
          refine ⟨t, l, rfl, h1, h3, h4, ?_⟩
          unfold Address.parse
          simp only [readU8]

end Tcpman
